import Mathlib

/-!
Shallow embedding of `src/manga-ebook-creator.py`: the volume-assembly
pipeline (chapter resolution, page ingestion, duplicate detection,
packaging, and the per-volume coordinator loop).

Conventions of the embedding:
* byte content of a file is `PageBytes` (`List Nat`);
* a directory or workspace is an association list `List (String × PageBytes)`
  of (file name, content); names inside one directory are unique;
* a 16x16 RGB thumbnail is a `Thumb`: the list of its 256 pixels in the
  scan order of `product(range(width), range(height))`, each pixel an
  (r, g, b) triple of naturals `≤ 255`;
* Python floats are modelled as exact rationals;
* `die(msg)` (print + exit 1) is `PyErr.died msg`; an uncaught Python
  exception is one of the other `PyErr` constructors.
-/

/-- Byte content of one page file. -/
abbrev PageBytes := List Nat

/-- A 16x16 thumbnail: 256 pixels, each an (r, g, b) triple. -/
abbrev Thumb := List (Nat × Nat × Nat)

/-- Fatal outcomes of the script.  `died` is the script's own `die()`
(diagnostic line + exit 1); the others are uncaught Python exceptions:
`typeError` from `os.path.join(input, None)`, `valueError` from `int()`,
`fileNotFound` from `os.remove` on a missing path. -/
inductive PyErr where
  | died (msg : String)
  | typeError
  | valueError
  | fileNotFound (path : String)
deriving DecidableEq

/-- Pipeline stages the coordinator performs for one volume, recorded as a
trace: lines 138-210 of the script. -/
inductive Stage where
  | deleteExisting
  | ingest (c : ℤ)
  | coverFetch
  | dedup
  | package
  | convert
  | relocate
deriving DecidableEq

/-- Per-channel absolute difference of two naturals, as computed by
`ImageChops.difference` on 8-bit channels. -/
def natDist (a b : Nat) : Nat := (a - b) + (b - a)

/-- Pixelwise `ImageChops.difference`: channelwise absolute difference. -/
def pixelDiff3 (p q : Nat × Nat × Nat) : Nat × Nat × Nat :=
  (natDist p.1 q.1, natDist p.2.1 q.2.1, natDist p.2.2 q.2.2)

/-- `(r + g + b) / 3` of line 48, exact rational in place of the float. -/
def channelMean (p : Nat × Nat × Nat) : ℚ :=
  ((p.1 : ℚ) + (p.2.1 : ℚ) + (p.2.2 : ℚ)) / 3

/-- `pixel_difference` of lines 40-52: accumulate the per-pixel channel
means, divide by `width * height` (16 * 16 = 256 for two thumbnails) and
then by 255. -/
def pixel_difference (t1 t2 : Thumb) : ℚ :=
  ((List.zipWith pixelDiff3 t1 t2).map channelMean).sum / 256 / 255

/-- `IMG_DIFF_THRESHOLD = 0.07` of line 21. -/
def IMG_DIFF_THRESHOLD : ℚ := 7 / 100

/-- Python string `<=` (lexicographic by code point), via the lexicographic
order on the underlying character lists. -/
def strLe (a b : String) : Prop := a.data ≤ b.data

instance : DecidableRel strLe := fun a b => inferInstanceAs (Decidable (a.data ≤ b.data))

instance : IsTrans String strLe := ⟨fun _ _ _ => le_trans⟩

instance : IsTotal String strLe := ⟨fun a b => le_total a.data b.data⟩

instance : IsAntisymm String strLe :=
  ⟨fun _ _ h1 h2 => congrArg String.mk (le_antisymm h1 h2)⟩

/-- Python's `list.sort()` on strings (line 132, line 172, line 194). -/
def sortStrings (l : List String) : List String := List.insertionSort strLe l

/-- Ordering of directory entries by file name, used where the script
sorts a listing and then reads each named file. -/
def pairLe (p q : String × PageBytes) : Prop := strLe p.1 q.1

instance : DecidableRel pairLe := fun p q => inferInstanceAs (Decidable (strLe p.1 q.1))

instance : IsTrans (String × PageBytes) pairLe :=
  ⟨fun _ _ _ h1 h2 => Trans.trans (r := strLe) h1 h2⟩

instance : IsTotal (String × PageBytes) pairLe :=
  ⟨fun p q => IsTotal.total (r := strLe) p.1 q.1⟩

/-- A directory listing sorted by file name. -/
def sortPairs (l : List (String × PageBytes)) : List (String × PageBytes) :=
  List.insertionSort pairLe l

/-- Does `needle` occur at the head of the second list? (Helper for the
Python substring test `str(c) in cd` of line 159.) -/
def leadMatch : List Char → List Char → Bool
  | [], _ => true
  | _ :: _, [] => false
  | a :: as, b :: bs => a = b && leadMatch as bs

/-- Python's substring containment `needle in hay` on character lists. -/
def hasSubChars (needle : List Char) : List Char → Bool
  | [] => needle.isEmpty
  | b :: bs => leadMatch needle (b :: bs) || hasSubChars needle bs

/-- One inner cell pass of the Levenshtein dynamic program: given the
pattern character `x`, the remaining target characters, the tail of the
previous row, the diagonal value and the value to the left, produce the
rest of the new row. -/
def levRow (x : Char) : List Char → List Nat → Nat → Nat → List Nat
  | [], _, _, _ => []
  | y :: ys, prow, diag, left =>
    let up := prow.headD 0
    let cell := min (min (up + 1) (left + 1)) (diag + if x = y then 0 else 1)
    cell :: levRow x ys prow.tail up cell

/-- One full row step of the Levenshtein dynamic program. -/
def levStep (x : Char) (ys : List Char) (prow : List Nat) : List Nat :=
  (prow.headD 0 + 1) :: levRow x ys prow.tail (prow.headD 0) (prow.headD 0 + 1)

/-- `Levenshtein.distance` of line 165: standard edit distance between two
strings, computed by the row dynamic program. -/
def levenshteinDistance (s t : String) : Nat :=
  (s.data.foldl (fun row x => levStep x t.data row) (List.range (t.data.length + 1))).getLastD 0

/-- Candidate directories for a chapter string: the sorted directory list
(line 132) filtered to names containing the decimal string (line 159). -/
def candidatesFor (cs : String) (dirs : List String) : List String :=
  (sortStrings dirs).filter (fun cd => hasSubChars cs.data cd.data)

/-- One iteration of the selection loop of lines 163-168: keep the
candidate only on a strict improvement of the running best distance. -/
def bestStep (cs : String) (acc : ℕ × Option String) (cd : String) : ℕ × Option String :=
  let d := levenshteinDistance cs cd
  if d < acc.1 then (d, some cd) else acc

/-- The selection loop of lines 162-168, started at `score = 999`,
`chapterdir = None`. -/
def pickBest (cs : String) (cands : List String) : ℕ × Option String :=
  cands.foldl (bestStep cs) (999, none)

/-- Chapter resolution (lines 159-168): the directory picked for the
decimal chapter string, `none` when the loop never updates. -/
def resolveChapter (cs : String) (dirs : List String) : Option String :=
  (pickBest cs (candidatesFor cs dirs)).2

/-- Left-pad a decimal string with zeros to width `w`. -/
def zpad (w : ℕ) (s : String) : String :=
  String.mk (List.replicate (w - s.length) '0' ++ s.data)

/-- Python's `f'{c:0w}'` format: zero-pad to total width `w`, the sign
counting toward the width. -/
def pyPad (w : ℕ) (c : ℤ) : String :=
  if c < 0 then "-" ++ zpad (w - 1) (toString c.natAbs) else zpad w (toString c.natAbs)

/-- Ingestion of one chapter (lines 171-182): sort the chapter listing by
file name, then copy each file's bytes unchanged into the workspace under
`f'{c:04}-{f}'`. -/
def ingestChapter (c : ℤ) (dir : List (String × PageBytes)) (ws : List (String × PageBytes)) :
    List (String × PageBytes) :=
  ws ++ (sortPairs dir).map (fun p => (pyPad 4 c ++ "-" ++ p.1, p.2))

/-- Packaging (lines 193-200): list the workspace, sort by file name, and
write each file into the archive under its base name, in that order. -/
def packageArchive (ws : List (String × PageBytes)) : List (String × PageBytes) :=
  sortPairs ws

/-- `SCAN_EXTENSIONS` of lines 24-29, as file-name suffixes. -/
def SCAN_EXTENSIONS : List String := [".jpg", ".jpeg", ".png", ".webp"]

/-- Does the name match the glob pattern `*.ext`? -/
def matchesExt (ext : String) (n : String) : Bool := ext.data.isSuffixOf n.data

/-- The image files of the workspace as `cleanup_dedups` collects them
(lines 57-59): per extension, in workspace listing order. -/
def globFiles (ws : List (String × PageBytes)) : List String :=
  SCAN_EXTENSIONS.foldr (fun ext acc => (ws.map Prod.fst).filter (matchesExt ext) ++ acc) []

/-- Content of the named workspace file (empty for a missing name; the
script only opens names it just listed). -/
def contentOf (ws : List (String × PageBytes)) (n : String) : PageBytes :=
  (List.lookup n ws).getD []

/-- `product(summaries, repeat=2)` of line 63: all ordered pairs in listing
order. -/
def allPairs (l : List (String × Thumb)) : List ((String × Thumb) × (String × Thumb)) :=
  l.foldr (fun x acc => l.map (fun y => (x, y)) ++ acc) []

/-- `tuple(sorted([str(f1), str(f2)]))` of line 64. -/
def sortKey (a b : String) : String × String := if strLe a b then (a, b) else (b, a)

/-- The `diffs` dictionary of lines 60-69 in insertion order: each
unordered pair of distinct files scored once under its canonical key. -/
def buildDiffs (pairs : List ((String × Thumb) × (String × Thumb))) :
    List ((String × String) × ℚ) :=
  pairs.foldl
    (fun diffs pq =>
      let key := sortKey pq.1.1 pq.2.1
      if pq.1.1 = pq.2.1 ∨ (diffs.map Prod.fst).contains key then diffs
      else diffs ++ [(key, pixel_difference pq.1.2 pq.2.2)])
    []

/-- `os.remove` (line 75): delete the named workspace file, or fail with
`FileNotFoundError` when it is already gone. -/
def osRemove (ws : List (String × PageBytes)) (k : String) :
    Except PyErr (List (String × PageBytes)) :=
  if (ws.map Prod.fst).contains k then
    Except.ok (ws.filter (fun p => p.1 ≠ k))
  else
    Except.error (PyErr.fileNotFound k)

/-- The removal loop of lines 72-75 restricted to the below-threshold
keys: remove both members of each pair, propagating the first uncaught
`FileNotFoundError`. -/
def removeFiles (ws : List (String × PageBytes)) :
    List (String × String) → Except PyErr (List (String × PageBytes))
  | [] => Except.ok ws
  | k :: rest =>
    match osRemove ws k.1 with
    | Except.error e => Except.error e
    | Except.ok ws1 =>
      match osRemove ws1 k.2 with
      | Except.error e => Except.error e
      | Except.ok ws2 => removeFiles ws2 rest

/-- `cleanup_dedups` of lines 54-75: thumbnail every image file, score
every unordered pair once, and delete both members of every pair scoring
strictly below `IMG_DIFF_THRESHOLD`.  `thumbOf` models
`thumbnail(Image.open(f))` for the file's bytes. -/
def cleanupDedups (thumbOf : PageBytes → Thumb) (ws : List (String × PageBytes)) :
    Except PyErr (List (String × PageBytes)) :=
  let summaries := (globFiles ws).map (fun n => (n, thumbOf (contentOf ws n)))
  let diffs := buildDiffs (allPairs summaries)
  removeFiles ws ((diffs.filter (fun kd => kd.2 < IMG_DIFF_THRESHOLD)).map Prod.fst)

/-- Python's `str.split(sep)` on the underlying characters. -/
def splitCharsAux (sep : Char) : List Char → List Char → List String
  | [], acc => [String.mk acc.reverse]
  | c :: rest, acc =>
    if c = sep then String.mk acc.reverse :: splitCharsAux sep rest []
    else splitCharsAux sep rest (c :: acc)

/-- `v.get('chapters').split('-')` of line 146. -/
def pySplit (s : String) (sep : Char) : List String := splitCharsAux sep s.data []

/-- Digit run to its value (helper for `int()`). -/
def digitsToNatCore : List Char → Nat → Nat
  | [], acc => acc
  | c :: rest, acc => digitsToNatCore rest (acc * 10 + (c.toNat - '0'.toNat))

/-- A non-empty all-digit run, or `none`. -/
def pyDigits (l : List Char) : Option Nat :=
  if l ≠ [] ∧ l.all Char.isDigit then some (digitsToNatCore l 0) else none

/-- Python's `int(s)` (line 151): optional sign followed by digits, a
`ValueError` (`none`) otherwise.  (Surrounding whitespace and underscore
digit grouping, which Python also accepts, are not modelled.) -/
def pyParseInt (s : String) : Option ℤ :=
  match s.data with
  | '+' :: rest => (pyDigits rest).map (fun n => (n : ℤ))
  | '-' :: rest => (pyDigits rest).map (fun n => -(n : ℤ))
  | l => (pyDigits l).map (fun n => (n : ℤ))

/-- Python's `range(a, b)` over integers. -/
def intRange (a b : ℤ) : List ℤ := (List.range (b - a).toNat).map (fun i => a + Int.ofNat i)

/-- `f'{title} - Volume {vid:03} [reCBZ].epub'` of line 137. -/
def epubName (title : String) (vid : ℤ) : String :=
  title ++ " - Volume " ++ pyPad 3 vid ++ " [reCBZ].epub"

/-- One entry of the `volumes` list of `meta.yml`. -/
structure Volume where
  vid : ℤ
  chapters : String
deriving DecidableEq

/-- The fixed surroundings of one coordinator run: parsed options, the
input root's chapter directories and their file listings, the output
directory's current file names, and the external collaborators (cover
fetch and thumbnailing) as pure oracles. -/
structure Env where
  title : String
  force : Bool
  dedupOpt : Bool
  chapterdirs : List String
  dirContents : String → List (String × PageBytes)
  outputFiles : List String
  cover : Option PageBytes
  thumbOf : PageBytes → Thumb

/-- Outcome of processing one volume: the trace of pipeline stages
performed, the resulting output-directory contents, and the fatal error
if one occurred (`none` on the success or skip path). -/
structure RunResult where
  trace : List Stage
  outputs : List String
  err : Option PyErr
deriving DecidableEq

/-- The chapter walk of lines 158-182: resolve each chapter in increasing
order, fail on a missing candidate (`os.path.join(input, None)` raises
`TypeError`) or an empty listing (`die`), otherwise ingest into the
workspace. -/
def chaptersLoop (env : Env) :
    List ℤ → List (String × PageBytes) → List Stage →
    List (String × PageBytes) × List Stage × Option PyErr
  | [], ws, tr => (ws, tr, none)
  | c :: rest, ws, tr =>
    match resolveChapter (toString c) env.chapterdirs with
    | none => (ws, tr, some PyErr.typeError)
    | some d =>
      if (env.dirContents d).isEmpty then
        (ws, tr, some (PyErr.died ("Chapter " ++ toString c ++ " seems to be empty. Missing scanned pages")))
      else
        chaptersLoop env rest (ingestChapter c (env.dirContents d) ws) (tr ++ [Stage.ingest c])

/-- The per-volume body of the `for v in volumes` loop (lines 134-210).
The existing-artifact check mirrors lines 138-144 exactly: when the
artifact exists the loop body `continue`s, after deleting it if `force`
is set.  Cover fetch is best-effort (`env.cover`), conversion and
relocation are the unchecked external calls of lines 202-207. -/
def processVolume (env : Env) (v : Volume) : RunResult :=
  let ename := epubName env.title v.vid
  if ename ∈ env.outputFiles then
    if env.force then
      { trace := [Stage.deleteExisting], outputs := env.outputFiles.erase ename, err := none }
    else
      { trace := [], outputs := env.outputFiles, err := none }
  else
    match pySplit v.chapters '-' with
    | [s1, s2] =>
      match pyParseInt s1 with
      | none => { trace := [], outputs := env.outputFiles, err := some PyErr.valueError }
      | some a =>
        match pyParseInt s2 with
        | none => { trace := [], outputs := env.outputFiles, err := some PyErr.valueError }
        | some b =>
          match chaptersLoop env (intRange a (b + 1)) [] [] with
          | (_, tr, some e) => { trace := tr, outputs := env.outputFiles, err := some e }
          | (ws, tr, none) =>
            let ws2 := match env.cover with
              | some bts => ws ++ [("0000.jpg", bts)]
              | none => ws
            let tr2 := tr ++ [Stage.coverFetch]
            if env.dedupOpt then
              match cleanupDedups env.thumbOf ws2 with
              | Except.error e => { trace := tr2 ++ [Stage.dedup], outputs := env.outputFiles, err := some e }
              | Except.ok _ =>
                { trace := tr2 ++ [Stage.dedup, Stage.package, Stage.convert, Stage.relocate],
                  outputs := ename :: env.outputFiles, err := none }
            else
              { trace := tr2 ++ [Stage.package, Stage.convert, Stage.relocate],
                outputs := ename :: env.outputFiles, err := none }
    | _ => { trace := [], outputs := env.outputFiles,
             err := some (PyErr.died ("Incorrect chapters definition for volume " ++ toString v.vid)) }

/-- `isReported e = true` exactly when the script terminated through its own
`die()` diagnostic rather than an uncaught exception. -/
def isReported : Option PyErr → Bool
  | some (PyErr.died _) => true
  | _ => false

/-- The all-black 16x16 thumbnail oracle: every file summarises to the
same thumbnail, so every pair of files is pixel-identical. -/
def constThumb : PageBytes → Thumb := fun _ => List.replicate 256 (0, 0, 0)

/-- A workspace of three image files (pairwise near-identical under
`constThumb`). -/
def tripleWs : List (String × PageBytes) := [("a.jpg", [0]), ("b.jpg", [1]), ("c.jpg", [2])]

/-- Base environment of the concrete coordinator runs: title `T`, no
options, no chapter directories, empty output directory. -/
def baseEnv : Env :=
  { title := "T"
    force := false
    dedupOpt := false
    chapterdirs := []
    dirContents := fun _ => []
    outputFiles := []
    cover := none
    thumbOf := constThumb }

/-- C1's run: the volume's artifact already exists and force is set, with
a perfectly usable chapter directory available. -/
def envForce : Env :=
  { baseEnv with
    force := true
    chapterdirs := ["ch1"]
    dirContents := fun _ => [("p1.jpg", [0])]
    outputFiles := ["T - Volume 001 [reCBZ].epub"] }

/-- C7's run: the artifact exists and force is not set. -/
def envSkip : Env :=
  { baseEnv with
    chapterdirs := ["ch1"]
    dirContents := fun _ => [("p1.jpg", [0])]
    outputFiles := ["T - Volume 001 [reCBZ].epub"] }

/-- C4's run: no directory name contains the chapter string `7`. -/
def envNoCand : Env := { baseEnv with chapterdirs := ["abc"] }

/-- C10's run: chapter 7 resolves to directory `ch7`, which is empty. -/
def envEmptyCh : Env := { baseEnv with chapterdirs := ["ch7"] }

/-! ## Helper lemmas -/

theorem strLe_refl (s : String) : strLe s s := le_refl s.data

theorem pixelDiff3_self (p : Nat × Nat × Nat) : pixelDiff3 p p = (0, 0, 0) := by
  simp [pixelDiff3, natDist]

theorem pixel_difference_self (t : Thumb) : pixel_difference t t = 0 := by
  unfold pixel_difference
  rw [List.zipWith_same]
  have h : ((t.map fun a => pixelDiff3 a a).map channelMean).sum = 0 := by
    apply List.sum_eq_zero
    intro x hx
    rw [List.map_map] at hx
    obtain ⟨p, _, hp⟩ := List.mem_map.mp hx
    rw [← hp]
    simp [Function.comp, pixelDiff3_self, channelMean]
  rw [h]
  norm_num

theorem channelMean_nonneg (p : Nat × Nat × Nat) : 0 ≤ channelMean p := by
  unfold channelMean
  positivity

theorem channelMean_le_255 (p : Nat × Nat × Nat)
    (h1 : p.1 ≤ 255) (h2 : p.2.1 ≤ 255) (h3 : p.2.2 ≤ 255) :
    channelMean p ≤ 255 := by
  unfold channelMean
  have c1 : (p.1 : ℚ) ≤ 255 := by exact_mod_cast h1
  have c2 : (p.2.1 : ℚ) ≤ 255 := by exact_mod_cast h2
  have c3 : (p.2.2 : ℚ) ≤ 255 := by exact_mod_cast h3
  linarith

theorem natDist_le_255 {a b : Nat} (ha : a ≤ 255) (hb : b ≤ 255) : natDist a b ≤ 255 := by
  unfold natDist
  omega

theorem zipWith_pixelDiff3_bounded :
    ∀ (t1 t2 : Thumb),
      (∀ p ∈ t1, p.1 ≤ 255 ∧ p.2.1 ≤ 255 ∧ p.2.2 ≤ 255) →
      (∀ p ∈ t2, p.1 ≤ 255 ∧ p.2.1 ≤ 255 ∧ p.2.2 ≤ 255) →
      ∀ q ∈ List.zipWith pixelDiff3 t1 t2, q.1 ≤ 255 ∧ q.2.1 ≤ 255 ∧ q.2.2 ≤ 255
  | [], _, _, _ => by simp
  | _ :: _, [], _, _ => by simp
  | p :: t1, r :: t2, h1, h2 => by
    intro q hq
    rcases List.mem_cons.mp hq with hq | hq
    · subst hq
      have hp := h1 p (List.mem_cons_self _ _)
      have hr := h2 r (List.mem_cons_self _ _)
      exact ⟨natDist_le_255 hp.1 hr.1, natDist_le_255 hp.2.1 hr.2.1,
        natDist_le_255 hp.2.2 hr.2.2⟩
    · exact zipWith_pixelDiff3_bounded t1 t2
        (fun x hx => h1 x (List.mem_cons_of_mem _ hx))
        (fun x hx => h2 x (List.mem_cons_of_mem _ hx)) q hq

/-! ## C6: pixel difference score -/

/-- C6: the difference score of two 16x16 thumbnails is the sum of the 256
per-pixel channel means of the absolute differences divided by 256 and by
255; it lies in `[0, 1]`; pixel-identical thumbnails score exactly `0` and
fall below every positive threshold; thumbnails differing by 255 in every
channel of every pixel score exactly `1` and are not below the `0.07`
threshold. -/
theorem pixel_difference_score_spec (t1 t2 : Thumb)
    (hl1 : t1.length = 256) (hl2 : t2.length = 256)
    (hb1 : ∀ p ∈ t1, p.1 ≤ 255 ∧ p.2.1 ≤ 255 ∧ p.2.2 ≤ 255)
    (hb2 : ∀ p ∈ t2, p.1 ≤ 255 ∧ p.2.1 ≤ 255 ∧ p.2.2 ≤ 255) :
    pixel_difference t1 t2 =
        ((List.zipWith pixelDiff3 t1 t2).map channelMean).sum / 256 / 255
      ∧ (0 ≤ pixel_difference t1 t2 ∧ pixel_difference t1 t2 ≤ 1)
      ∧ (t1 = t2 → pixel_difference t1 t2 = 0 ∧
          ∀ θ : ℚ, 0 < θ → pixel_difference t1 t2 < θ)
      ∧ (List.zipWith pixelDiff3 t1 t2 = List.replicate 256 (255, 255, 255) →
          pixel_difference t1 t2 = 1 ∧
            ¬ pixel_difference t1 t2 < IMG_DIFF_THRESHOLD) := by
  refine ⟨rfl, ⟨?_, ?_⟩, ?_, ?_⟩
  · unfold pixel_difference
    have hs : 0 ≤ ((List.zipWith pixelDiff3 t1 t2).map channelMean).sum := by
      apply List.sum_nonneg
      intro x hx
      obtain ⟨q, _, hq⟩ := List.mem_map.mp hx
      rw [← hq]
      exact channelMean_nonneg q
    positivity
  · unfold pixel_difference
    have hlen : (List.zipWith pixelDiff3 t1 t2).length = 256 := by
      rw [List.length_zipWith, hl1, hl2, min_self]
    have hs : ((List.zipWith pixelDiff3 t1 t2).map channelMean).sum ≤ 256 * 255 := by
      have := List.sum_le_card_nsmul ((List.zipWith pixelDiff3 t1 t2).map channelMean) 255 ?_
      · rwa [List.length_map, hlen, nsmul_eq_mul, Nat.cast_ofNat] at this
      · intro x hx
        obtain ⟨q, hqmem, hq⟩ := List.mem_map.mp hx
        rw [← hq]
        have hqb := zipWith_pixelDiff3_bounded t1 t2 hb1 hb2 q hqmem
        exact channelMean_le_255 q hqb.1 hqb.2.1 hqb.2.2
    rw [div_div]
    rw [div_le_one (by norm_num : (0:ℚ) < 256 * 255)]
    exact hs
  · intro heq
    subst heq
    rw [pixel_difference_self]
    exact ⟨rfl, fun θ hθ => hθ⟩
  · intro hmax
    have h1 : pixel_difference t1 t2 = 1 := by
      unfold pixel_difference
      rw [hmax, List.map_replicate]
      have : channelMean (255, 255, 255) = 255 := by
        unfold channelMean
        norm_num
      rw [this, List.sum_replicate, nsmul_eq_mul]
      norm_num
    refine ⟨h1, ?_⟩
    rw [h1]
    unfold IMG_DIFF_THRESHOLD
    norm_num

/-- C6 witness: the score of the all-255 thumbnail against the all-0
thumbnail, with every hypothesis discharged concretely. -/
theorem pixel_difference_score_spec_witness :
    pixel_difference (List.replicate 256 (255, 255, 255)) (List.replicate 256 (0, 0, 0)) =
        ((List.zipWith pixelDiff3 (List.replicate 256 (255, 255, 255))
          (List.replicate 256 (0, 0, 0))).map channelMean).sum / 256 / 255
      ∧ (0 ≤ pixel_difference (List.replicate 256 (255, 255, 255)) (List.replicate 256 (0, 0, 0)) ∧
          pixel_difference (List.replicate 256 (255, 255, 255)) (List.replicate 256 (0, 0, 0)) ≤ 1)
      ∧ (List.replicate 256 (255, 255, 255) = List.replicate 256 (0, 0, 0) →
          pixel_difference (List.replicate 256 (255, 255, 255)) (List.replicate 256 (0, 0, 0)) = 0 ∧
            ∀ θ : ℚ, 0 < θ →
              pixel_difference (List.replicate 256 (255, 255, 255)) (List.replicate 256 (0, 0, 0)) < θ)
      ∧ (List.zipWith pixelDiff3 (List.replicate 256 (255, 255, 255)) (List.replicate 256 (0, 0, 0)) =
            List.replicate 256 (255, 255, 255) →
          pixel_difference (List.replicate 256 (255, 255, 255)) (List.replicate 256 (0, 0, 0)) = 1 ∧
            ¬ pixel_difference (List.replicate 256 (255, 255, 255)) (List.replicate 256 (0, 0, 0)) <
              IMG_DIFF_THRESHOLD) :=
  pixel_difference_score_spec (List.replicate 256 (255, 255, 255)) (List.replicate 256 (0, 0, 0))
    (List.length_replicate 256 (255, 255, 255)) (List.length_replicate 256 (0, 0, 0))
    (by intro p hp; rw [List.mem_replicate] at hp; rw [hp.2]; exact ⟨le_refl _, le_refl _, le_refl _⟩)
    (by intro p hp; rw [List.mem_replicate] at hp; rw [hp.2]; exact ⟨by norm_num, by norm_num, by norm_num⟩)

theorem sortPairs_perm (l : List (String × PageBytes)) : List.Perm (sortPairs l) l :=
  List.perm_insertionSort pairLe l

theorem sortPairs_sorted (l : List (String × PageBytes)) : List.Sorted pairLe (sortPairs l) :=
  List.sorted_insertionSort pairLe l

theorem sortPairs_names_sorted (l : List (String × PageBytes)) :
    List.Sorted strLe ((sortPairs l).map Prod.fst) :=
  List.Pairwise.map Prod.fst (fun _ _ h => h) (sortPairs_sorted l)

/-! ## C8: packaging round-trip -/

/-- C8: the packaged archive holds exactly the workspace's surviving
files — the same (base name, byte content) entries, nothing else — with
its entries in lexicographically sorted name order. -/
theorem packageArchive_roundtrip (ws : List (String × PageBytes)) :
    List.Perm (packageArchive ws) ws
    ∧ List.Sorted strLe ((packageArchive ws).map Prod.fst)
    ∧ List.Perm ((packageArchive ws).map Prod.fst) (ws.map Prod.fst) :=
  ⟨sortPairs_perm ws, sortPairs_names_sorted ws, (sortPairs_perm ws).map Prod.fst⟩

/-! ## C5: ingestion naming and ordering -/

/-- C5: ingestion copies each chapter file's bytes unchanged under the
name `f'{c:04}-{f}'`, and for chapters 5 and 6 each listing `b.jpg` and
`a.jpg` in any order, the workspace's sorted listing is exactly
`0005-a.jpg, 0005-b.jpg, 0006-a.jpg, 0006-b.jpg`. -/
theorem ingestChapter_spec :
    (∀ (c : ℤ) (dir ws : List (String × PageBytes)) (n : String) (b : PageBytes),
      (n, b) ∈ ingestChapter c dir ws ↔
        (n, b) ∈ ws ∨ ∃ f, (f, b) ∈ dir ∧ n = pyPad 4 c ++ "-" ++ f)
    ∧ (∀ l5 l6 : List (String × PageBytes),
        List.Perm (l5.map Prod.fst) ["b.jpg", "a.jpg"] →
        List.Perm (l6.map Prod.fst) ["b.jpg", "a.jpg"] →
        sortStrings ((ingestChapter 6 l6 (ingestChapter 5 l5 [])).map Prod.fst) =
          ["0005-a.jpg", "0005-b.jpg", "0006-a.jpg", "0006-b.jpg"]) := by
  constructor
  · intro c dir ws n b
    unfold ingestChapter
    rw [List.mem_append, List.mem_map]
    apply or_congr_right
    constructor
    · rintro ⟨p, hp, heq⟩
      have hpd : p ∈ dir := (sortPairs_perm dir).mem_iff.mp hp
      obtain ⟨h1, h2⟩ := Prod.mk.injEq .. ▸ heq
      refine ⟨p.1, ?_, h1.symm⟩
      have : p = (p.1, b) := by rw [← h2]
      rwa [this] at hpd
    · rintro ⟨f, hf, hn⟩
      exact ⟨(f, b), (sortPairs_perm dir).mem_iff.mpr hf, by rw [hn]⟩
  · intro l5 l6 h5 h6
    have e5 : (sortPairs l5).map Prod.fst = ["a.jpg", "b.jpg"] := by
      apply List.eq_of_perm_of_sorted (r := strLe)
      · exact (((sortPairs_perm l5).map Prod.fst).trans h5).trans (by decide)
      · exact sortPairs_names_sorted l5
      · decide
    have e6 : (sortPairs l6).map Prod.fst = ["a.jpg", "b.jpg"] := by
      apply List.eq_of_perm_of_sorted (r := strLe)
      · exact (((sortPairs_perm l6).map Prod.fst).trans h6).trans (by decide)
      · exact sortPairs_names_sorted l6
      · decide
    have names : ∀ (c : ℤ) (l : List (String × PageBytes)),
        (sortPairs l).map Prod.fst = ["a.jpg", "b.jpg"] →
        ((sortPairs l).map (fun p => (pyPad 4 c ++ "-" ++ p.1, p.2))).map Prod.fst =
          [pyPad 4 c ++ "-" ++ "a.jpg", pyPad 4 c ++ "-" ++ "b.jpg"] := by
      intro c l hl
      rw [List.map_map]
      rw [show (Prod.fst ∘ fun p : String × PageBytes => (pyPad 4 c ++ "-" ++ p.1, p.2)) =
        ((fun s => pyPad 4 c ++ "-" ++ s) ∘ Prod.fst) from rfl]
      rw [← List.map_map, hl]
      rfl
    have ntot : (ingestChapter 6 l6 (ingestChapter 5 l5 [])).map Prod.fst =
        ["0005-a.jpg", "0005-b.jpg", "0006-a.jpg", "0006-b.jpg"] := by
      unfold ingestChapter
      rw [List.map_append, List.map_append]
      rw [names 5 l5 e5, names 6 l6 e6]
      decide
    rw [ntot]
    exact List.Sorted.insertionSort_eq (by decide)

/-- C5 witness: both chapter listings given in the unsorted order
`b.jpg, a.jpg`, evaluated to the exact sorted workspace listing. -/
theorem ingestChapter_spec_witness :
    sortStrings ((ingestChapter 6 [("b.jpg", [3]), ("a.jpg", [4])]
        (ingestChapter 5 [("b.jpg", [1]), ("a.jpg", [2])] [])).map Prod.fst) =
      ["0005-a.jpg", "0005-b.jpg", "0006-a.jpg", "0006-b.jpg"] :=
  ingestChapter_spec.2 [("b.jpg", [1]), ("a.jpg", [2])] [("b.jpg", [3]), ("a.jpg", [4])]
    (by decide) (by decide)

/-! ## C3/C4: chapter resolution -/

theorem pickBest_no_update (cs : String) :
    ∀ (l : List String) (b : ℕ) (r : Option String),
      (∀ x ∈ l, ¬ levenshteinDistance cs x < b) →
      l.foldl (bestStep cs) (b, r) = (b, r)
  | [], _, _, _ => rfl
  | x :: xs, b, r, h => by
    rw [List.foldl_cons]
    have hx : bestStep cs (b, r) x = (b, r) := by
      unfold bestStep
      rw [if_neg (h x (List.mem_cons_self _ _))]
    rw [hx]
    exact pickBest_no_update cs xs b r (fun y hy => h y (List.mem_cons_of_mem _ hy))

theorem pickBest_argmin (cs : String) :
    ∀ (l : List String) (b : ℕ) (r : Option String),
      List.Sorted strLe l →
      (∃ x ∈ l, levenshteinDistance cs x < b) →
      ∃ w, (l.foldl (bestStep cs) (b, r)).2 = some w ∧ w ∈ l ∧
        levenshteinDistance cs w < b ∧
        (∀ x ∈ l, levenshteinDistance cs w ≤ levenshteinDistance cs x) ∧
        (∀ x ∈ l, levenshteinDistance cs x = levenshteinDistance cs w → strLe w x)
  | [], _, _, _, hex => absurd hex (by simp)
  | x :: xs, b, r, hsort, hex => by
    obtain ⟨hxhead, hxs_sorted⟩ := List.sorted_cons.mp hsort
    by_cases hx : levenshteinDistance cs x < b
    · have step_eq : bestStep cs (b, r) x = (levenshteinDistance cs x, some x) := by
        unfold bestStep
        rw [if_pos hx]
      by_cases hxs : ∃ y ∈ xs, levenshteinDistance cs y < levenshteinDistance cs x
      · obtain ⟨w, hw1, hw2, hw3, hw4, hw5⟩ :=
          pickBest_argmin cs xs (levenshteinDistance cs x) (some x) hxs_sorted hxs
        refine ⟨w, ?_, List.mem_cons_of_mem _ hw2, lt_trans hw3 hx, ?_, ?_⟩
        · rw [List.foldl_cons, step_eq]
          exact hw1
        · intro z hz
          rcases List.mem_cons.mp hz with hz | hz
          · rw [hz]
            exact le_of_lt hw3
          · exact hw4 z hz
        · intro z hz heq
          rcases List.mem_cons.mp hz with hz | hz
          · rw [hz] at heq
            exact absurd heq (ne_of_gt hw3)
          · exact hw5 z hz heq
      · push_neg at hxs
        have hrest : xs.foldl (bestStep cs) (levenshteinDistance cs x, some x) =
            (levenshteinDistance cs x, some x) :=
          pickBest_no_update cs xs _ _ (fun y hy => not_lt.mpr (hxs y hy))
        refine ⟨x, ?_, List.mem_cons_self _ _, hx, ?_, ?_⟩
        · rw [List.foldl_cons, step_eq, hrest]
        · intro z hz
          rcases List.mem_cons.mp hz with hz | hz
          · rw [hz]
          · exact hxs z hz
        · intro z hz _
          rcases List.mem_cons.mp hz with hz | hz
          · rw [hz]
            exact strLe_refl x
          · exact hxhead z hz
    · have step_eq : bestStep cs (b, r) x = (b, r) := by
        unfold bestStep
        rw [if_neg hx]
      have hxs : ∃ y ∈ xs, levenshteinDistance cs y < b := by
        obtain ⟨z, hz, hzb⟩ := hex
        rcases List.mem_cons.mp hz with hz | hz
        · rw [hz] at hzb
          exact absurd hzb hx
        · exact ⟨z, hz, hzb⟩
      obtain ⟨w, hw1, hw2, hw3, hw4, hw5⟩ := pickBest_argmin cs xs b r hxs_sorted hxs
      refine ⟨w, ?_, List.mem_cons_of_mem _ hw2, hw3, ?_, ?_⟩
      · rw [List.foldl_cons, step_eq]
        exact hw1
      · intro z hz
        rcases List.mem_cons.mp hz with hz | hz
        · rw [hz]
          exact le_trans (le_of_lt hw3) (not_lt.mp hx)
        · exact hw4 z hz
      · intro z hz heq
        rcases List.mem_cons.mp hz with hz | hz
        · rw [hz] at heq
          have : levenshteinDistance cs w < levenshteinDistance cs z := by
            rw [hz]
            exact lt_of_lt_of_le hw3 (not_lt.mp hx)
          rw [hz] at this
          exact absurd heq.symm (ne_of_lt this)
        · exact hw5 z hz heq

theorem candidatesFor_sorted (cs : String) (dirs : List String) :
    List.Sorted strLe (candidatesFor cs dirs) :=
  List.Sorted.filter _ (List.sorted_insertionSort strLe dirs)

theorem mem_candidatesFor (cs : String) (dirs : List String) (cd : String) :
    cd ∈ candidatesFor cs dirs ↔ cd ∈ dirs ∧ hasSubChars cs.data cd.data = true := by
  unfold candidatesFor sortStrings
  rw [List.mem_filter, (List.perm_insertionSort strLe dirs).mem_iff]

/-- C3 (amended): whenever some candidate scores a Levenshtein distance
below the loop's initial sentinel 999, resolution picks the candidate of
minimum distance, settling every tie in favour of the lexicographically
first candidate; candidates are exactly the directories containing the
decimal chapter string; directories `001-Intro`, `010`, `100` with
chapter 10 resolve to `010`. -/
theorem resolveChapter_spec :
    (∀ (n : ℕ) (dirs : List String),
      (∃ cd ∈ candidatesFor (toString n) dirs,
          levenshteinDistance (toString n) cd < 999) →
      (∀ cd, cd ∈ candidatesFor (toString n) dirs ↔
          cd ∈ dirs ∧ hasSubChars (toString n).data cd.data = true) ∧
      ∃ w, resolveChapter (toString n) dirs = some w ∧
        w ∈ candidatesFor (toString n) dirs ∧
        (∀ cd ∈ candidatesFor (toString n) dirs,
          levenshteinDistance (toString n) w ≤ levenshteinDistance (toString n) cd) ∧
        (∀ cd ∈ candidatesFor (toString n) dirs,
          levenshteinDistance (toString n) cd = levenshteinDistance (toString n) w →
            strLe w cd))
    ∧ resolveChapter (toString 10) ["001-Intro", "010", "100"] = some "010" := by
  constructor
  · intro n dirs hex
    refine ⟨mem_candidatesFor (toString n) dirs, ?_⟩
    obtain ⟨w, hw1, hw2, _, hw4, hw5⟩ :=
      pickBest_argmin (toString n) (candidatesFor (toString n) dirs) 999 none
        (candidatesFor_sorted _ _) hex
    exact ⟨w, hw1, hw2, hw4, hw5⟩
  · decide

/-- C3 witness: the spec's own example, with the sentinel hypothesis
discharged concretely (distance 1 < 999). -/
theorem resolveChapter_spec_witness :
    (∀ cd, cd ∈ candidatesFor (toString 10) ["001-Intro", "010", "100"] ↔
        cd ∈ ["001-Intro", "010", "100"] ∧
          hasSubChars (toString 10).data cd.data = true) ∧
    ∃ w, resolveChapter (toString 10) ["001-Intro", "010", "100"] = some w ∧
      w ∈ candidatesFor (toString 10) ["001-Intro", "010", "100"] ∧
      (∀ cd ∈ candidatesFor (toString 10) ["001-Intro", "010", "100"],
        levenshteinDistance (toString 10) w ≤ levenshteinDistance (toString 10) cd) ∧
      (∀ cd ∈ candidatesFor (toString 10) ["001-Intro", "010", "100"],
        levenshteinDistance (toString 10) cd = levenshteinDistance (toString 10) w →
          strLe w cd) :=
  resolveChapter_spec.1 10 ["001-Intro", "010", "100"] (by decide)

theorem levRow_ones : ∀ (k d l : ℕ), d ≤ l + 1 →
    levRow '1' (List.replicate k '1') (List.range' (d + 1) k) d l = List.range' d k
  | 0, _, _, _ => rfl
  | k + 1, d, l, h => by
    rw [List.replicate_succ, List.range'_succ]
    simp only [levRow, List.headD_cons, List.tail_cons, eq_self_iff_true, if_true, Nat.add_zero]
    have hcell : min (min (d + 1 + 1) (l + 1)) d = d := by
      omega
    rw [hcell]
    rw [levRow_ones k (d + 1) d (by omega)]
    rw [List.range'_succ]

theorem getLastD_range' : ∀ (k s d : ℕ), (List.range' s (k + 1)).getLastD d = s + k
  | 0, s, _ => by simp
  | k + 1, s, d => by
    rw [List.range'_succ, List.getLastD_cons, getLastD_range' k (s + 1) s]
    omega

theorem lev_one_replicate :
    levenshteinDistance "1" (String.mk (List.replicate 1000 '1')) = 999 := by
  unfold levenshteinDistance
  rw [show (String.mk (List.replicate 1000 '1')).data = List.replicate 1000 '1' from rfl]
  rw [show "1".data = ['1'] from rfl]
  rw [List.length_replicate, List.foldl_cons, List.foldl_nil]
  unfold levStep
  rw [List.range_eq_range', List.range'_succ]
  simp only [List.headD_cons, List.tail_cons]
  rw [show (0 : ℕ) + 1 = 1 from rfl]
  rw [levRow_ones 1000 0 1 (by omega)]
  rw [List.getLastD_cons]
  exact getLastD_range' 999 0 1

theorem candidatesFor_singleton (cs cd : String) (h : hasSubChars cs.data cd.data = true) :
    candidatesFor cs [cd] = [cd] := by
  unfold candidatesFor sortStrings
  rw [show List.insertionSort strLe [cd] = [cd] from rfl]
  rw [List.filter_cons, if_pos h]
  rfl

theorem resolve_sentinel (cs cd : String) (h : hasSubChars cs.data cd.data = true)
    (hd : 999 ≤ levenshteinDistance cs cd) : resolveChapter cs [cd] = none := by
  unfold resolveChapter pickBest
  rw [candidatesFor_singleton cs cd h, List.foldl_cons, List.foldl_nil]
  unfold bestStep
  rw [if_neg (not_lt.mpr hd)]

/-- C3 counterexample: a single candidate directory of 1000 characters
containing the chapter string `1` sits at Levenshtein distance 999; the
loop's initial score of 999 is never beaten, so resolution selects no
candidate at all instead of the minimum-distance candidate. -/
theorem resolveChapter_sentinel_counterexample :
    candidatesFor "1" [String.mk (List.replicate 1000 '1')] =
        [String.mk (List.replicate 1000 '1')]
    ∧ resolveChapter "1" [String.mk (List.replicate 1000 '1')] = none
    ∧ resolveChapter "1" [String.mk (List.replicate 1000 '1')] ≠
        some (String.mk (List.replicate 1000 '1')) :=
  have hcands : candidatesFor "1" [String.mk (List.replicate 1000 '1')] =
      [String.mk (List.replicate 1000 '1')] :=
    candidatesFor_singleton "1" (String.mk (List.replicate 1000 '1')) rfl
  have hnone : resolveChapter "1" [String.mk (List.replicate 1000 '1')] = none :=
    resolve_sentinel "1" (String.mk (List.replicate 1000 '1')) rfl
      (le_of_eq lev_one_replicate.symm)
  ⟨hcands, hnone, by rw [hnone]; exact Option.noConfusion⟩

/-! ## C1/C7: existing-artifact policy -/

/-- C1: with the artifact present and force set, the loop body deletes the
artifact and then executes `continue` (line 142), so the volume is
*skipped*, not regenerated: the only stage performed is the deletion, no
ingestion, packaging, conversion or relocation happens, and the output
directory is left without the artifact. -/
theorem processVolume_force_deletes_then_skips :
    processVolume envForce { vid := 1, chapters := "1-1" } =
      { trace := [Stage.deleteExisting], outputs := [], err := none } := by
  decide

/-- C7: with the artifact present and force not set, the volume is a
successful no-op: no pipeline stage runs and the outputs are unchanged. -/
theorem processVolume_skip (env : Env) (v : Volume)
    (hmem : epubName env.title v.vid ∈ env.outputFiles) (hforce : env.force = false) :
    processVolume env v = { trace := [], outputs := env.outputFiles, err := none } := by
  unfold processVolume
  rw [if_pos hmem, hforce]
  rw [if_neg Bool.false_ne_true]

/-- C7 witness: a concrete skip run whose artifact already exists. -/
theorem processVolume_skip_witness :
    processVolume envSkip { vid := 1, chapters := "1-1" } =
      { trace := [], outputs := ["T - Volume 001 [reCBZ].epub"], err := none } := by
  rw [processVolume_skip envSkip { vid := 1, chapters := "1-1" } (by decide) rfl]
  rfl

/-! ## C4/C9/C10: coordinator error paths -/

theorem intRange_cons (a b : ℤ) (hab : a ≤ b) :
    intRange a (b + 1) = a :: intRange (a + 1) (b + 1) := by
  unfold intRange
  have h1 : (b + 1 - a).toNat = (b + 1 - (a + 1)).toNat + 1 := by omega
  rw [h1, List.range_succ_eq_map, List.map_cons, List.map_map]
  congr 1
  · simp
  · apply List.map_congr_left
    intro i _
    show a + Int.ofNat (Nat.succ i) = a + 1 + Int.ofNat i
    rw [show Int.ofNat (Nat.succ i) = Int.ofNat i + 1 from rfl]
    ring

theorem intRange_nil (a b : ℤ) (hba : b < a) : intRange a (b + 1) = [] := by
  unfold intRange
  have h1 : (b + 1 - a).toNat = 0 := by omega
  rw [h1]
  rfl

theorem resolveChapter_of_no_sub (cs : String) (dirs : List String)
    (hno : ∀ d ∈ dirs, hasSubChars cs.data d.data = false) :
    resolveChapter cs dirs = none := by
  have hcand : candidatesFor cs dirs = [] := by
    unfold candidatesFor sortStrings
    rw [List.filter_eq_nil_iff]
    intro x hx
    rw [hno x ((List.perm_insertionSort strLe dirs).mem_iff.mp hx)]
    simp
  unfold resolveChapter pickBest
  rw [hcand]
  rfl

/-- C4 (amended): when no directory name contains the chapter's decimal
string, resolution selects no candidate (`chapterdir` stays `None`) and
the run aborts with the uncaught `TypeError` of
`os.path.join(input, None)` — not with a reported, typed resolution
failure. -/
theorem processVolume_no_candidate (env : Env) (v : Volume) (s1 s2 : String) (a b : ℤ)
    (hmem : epubName env.title v.vid ∉ env.outputFiles)
    (hsplit : pySplit v.chapters '-' = [s1, s2])
    (hp1 : pyParseInt s1 = some a) (hp2 : pyParseInt s2 = some b) (hab : a ≤ b)
    (hno : ∀ d ∈ env.chapterdirs, hasSubChars (toString a).data d.data = false) :
    resolveChapter (toString a) env.chapterdirs = none ∧
    processVolume env v =
      { trace := [], outputs := env.outputFiles, err := some PyErr.typeError } ∧
    isReported (processVolume env v).err = false := by
  have hres : resolveChapter (toString a) env.chapterdirs = none :=
    resolveChapter_of_no_sub (toString a) env.chapterdirs hno
  have hloop : chaptersLoop env (a :: intRange (a + 1) (b + 1)) [] [] =
      ([], [], some PyErr.typeError) := by
    simp only [chaptersLoop, hres]
  have hrun : processVolume env v =
      { trace := [], outputs := env.outputFiles, err := some PyErr.typeError } := by
    unfold processVolume
    rw [if_neg hmem, hsplit]
    simp only [hp1, hp2]
    rw [intRange_cons a b hab, hloop]
  refine ⟨hres, hrun, ?_⟩
  rw [hrun]
  rfl



/-- C4 counterexample: chapter 7 with the single directory `abc` (which
does not contain `7`): the run fails with an uncaught `TypeError`, which
is not a reported (`die`) diagnostic of any kind. -/
theorem processVolume_no_candidate_counterexample :
    processVolume envNoCand { vid := 1, chapters := "7-7" } =
      { trace := [], outputs := [], err := some PyErr.typeError } ∧
    isReported (processVolume envNoCand { vid := 1, chapters := "7-7" }).err = false := by
  constructor
  · decide
  · decide

/-- C4 witness: the counterexample environment run through the amended
statement, all hypotheses discharged concretely. -/
theorem processVolume_no_candidate_witness :
    resolveChapter (toString (7 : ℤ)) envNoCand.chapterdirs = none ∧
    processVolume envNoCand { vid := 1, chapters := "7-7" } =
      { trace := [], outputs := envNoCand.outputFiles, err := some PyErr.typeError } ∧
    isReported (processVolume envNoCand { vid := 1, chapters := "7-7" }).err = false :=
  processVolume_no_candidate envNoCand { vid := 1, chapters := "7-7" } "7" "7" 7 7
    (by decide) (by decide) (by decide) (by decide) (by decide) (by decide)

theorem chaptersLoop_no_package (env : Env) :
    ∀ (cs : List ℤ) (ws : List (String × PageBytes)) (tr : List Stage),
      Stage.package ∉ tr → Stage.package ∉ (chaptersLoop env cs ws tr).2.1
  | [], _, _, h => h
  | c :: rest, ws, tr, h => by
    simp only [chaptersLoop]
    cases hres : resolveChapter (toString c) env.chapterdirs with
    | none => simpa using h
    | some d =>
      dsimp only
      by_cases hemp : (env.dirContents d).isEmpty
      · rw [if_pos hemp]
        simpa using h
      · rw [if_neg hemp]
        refine chaptersLoop_no_package env rest (ingestChapter c (env.dirContents d) ws)
          (tr ++ [Stage.ingest c]) ?_
        rw [List.mem_append]
        rintro (h1 | h2)
        · exact h h1
        · simp at h2

/-- C10: an empty resolved chapter directory aborts the run with the
reported empty-chapter diagnostic before any packaging, leaving the
output directory unchanged; and in general, any failing run has performed
no packaging stage and has not touched the output directory. -/
theorem processVolume_empty_chapter :
    (∀ (env : Env) (v : Volume) (s1 s2 : String) (a b : ℤ) (d : String),
      epubName env.title v.vid ∉ env.outputFiles →
      pySplit v.chapters '-' = [s1, s2] →
      pyParseInt s1 = some a → pyParseInt s2 = some b → a ≤ b →
      resolveChapter (toString a) env.chapterdirs = some d →
      env.dirContents d = [] →
      processVolume env v =
        { trace := [], outputs := env.outputFiles,
          err := some (PyErr.died ("Chapter " ++ toString a ++ " seems to be empty. Missing scanned pages")) })
    ∧ (∀ (env : Env) (v : Volume), (processVolume env v).err ≠ none →
        Stage.package ∉ (processVolume env v).trace ∧
        (processVolume env v).outputs = env.outputFiles) := by
  constructor
  · intro env v s1 s2 a b d hmem hsplit hp1 hp2 hab hres hempty
    have hloop : chaptersLoop env (a :: intRange (a + 1) (b + 1)) [] [] =
        ([], [],
          some (PyErr.died ("Chapter " ++ toString a ++ " seems to be empty. Missing scanned pages"))) := by
      simp only [chaptersLoop, hres]
      rw [hempty]
      simp
    unfold processVolume
    rw [if_neg hmem, hsplit]
    simp only [hp1, hp2]
    rw [intRange_cons a b hab, hloop]
  · intro env v
    unfold processVolume
    dsimp only
    by_cases hmem : epubName env.title v.vid ∈ env.outputFiles
    · rw [if_pos hmem]
      split <;> (intro herr; exact absurd rfl herr)
    · rw [if_neg hmem]
      split
      · rename_i s1 s2 hsplit
        split
        · intro _
          exact ⟨by simp, rfl⟩
        · rename_i a hp1
          split
          · intro _
            exact ⟨by simp, rfl⟩
          · rename_i b hp2
            split
            · rename_i ws tr e heq
              intro _
              refine ⟨?_, rfl⟩
              show Stage.package ∉ tr
              have hnp := chaptersLoop_no_package env (intRange a (b + 1)) [] [] (by simp)
              rw [heq] at hnp
              exact hnp
            · rename_i ws tr heq
              split
              · split
                · rename_i e hcl
                  intro _
                  refine ⟨?_, rfl⟩
                  show Stage.package ∉ tr ++ [Stage.coverFetch] ++ [Stage.dedup]
                  have hnp := chaptersLoop_no_package env (intRange a (b + 1)) [] [] (by simp)
                  rw [heq] at hnp
                  simp only [List.mem_append]
                  rintro ((h1 | h2) | h3)
                  · exact hnp h1
                  · simp at h2
                  · simp at h3
                · intro herr
                  exact absurd rfl herr
              · intro herr
                exact absurd rfl herr
      · intro _
        exact ⟨by simp, rfl⟩

/-- C10 witness: chapter 7 resolves to the empty directory `ch7`; the run
dies with the empty-chapter diagnostic, no packaging stage in the trace,
outputs untouched. -/
theorem processVolume_empty_chapter_witness :
    processVolume envEmptyCh { vid := 1, chapters := "7-7" } =
      { trace := [], outputs := envEmptyCh.outputFiles,
        err := some (PyErr.died ("Chapter " ++ toString (7 : ℤ) ++ " seems to be empty. Missing scanned pages")) } :=
  processVolume_empty_chapter.1 envEmptyCh { vid := 1, chapters := "7-7" } "7" "7" 7 7 "ch7"
    (by decide) (by decide) (by decide) (by decide) (by decide) (by decide) rfl

/-- C9 (amended): only a chapter-range text that does not split on `-`
into exactly two parts aborts with the reported malformed-range
diagnostic; two parts that are not both integers abort with an uncaught
`ValueError`; and two integers with start > end are not rejected at all —
the volume proceeds through cover fetch, packaging, conversion and
relocation over an empty chapter range. -/
theorem processVolume_range_parsing :
    (∀ (env : Env) (v : Volume),
      epubName env.title v.vid ∉ env.outputFiles →
      (pySplit v.chapters '-').length ≠ 2 →
      processVolume env v =
        { trace := [], outputs := env.outputFiles,
          err := some (PyErr.died ("Incorrect chapters definition for volume " ++ toString v.vid)) })
    ∧ (∀ (env : Env) (v : Volume) (s1 s2 : String),
        epubName env.title v.vid ∉ env.outputFiles →
        pySplit v.chapters '-' = [s1, s2] → pyParseInt s1 = none →
        processVolume env v =
          { trace := [], outputs := env.outputFiles, err := some PyErr.valueError })
    ∧ (∀ (env : Env) (v : Volume) (s1 s2 : String) (a : ℤ),
        epubName env.title v.vid ∉ env.outputFiles →
        pySplit v.chapters '-' = [s1, s2] → pyParseInt s1 = some a → pyParseInt s2 = none →
        processVolume env v =
          { trace := [], outputs := env.outputFiles, err := some PyErr.valueError })
    ∧ (∀ (env : Env) (v : Volume) (s1 s2 : String) (a b : ℤ),
        epubName env.title v.vid ∉ env.outputFiles →
        pySplit v.chapters '-' = [s1, s2] → pyParseInt s1 = some a → pyParseInt s2 = some b →
        b < a → env.dedupOpt = false →
        processVolume env v =
          { trace := [Stage.coverFetch, Stage.package, Stage.convert, Stage.relocate],
            outputs := epubName env.title v.vid :: env.outputFiles, err := none }) := by
  refine ⟨?_, ?_, ?_, ?_⟩
  · intro env v hmem hlen
    unfold processVolume
    dsimp only
    rw [if_neg hmem]
    rcases hl : pySplit v.chapters '-' with _ | ⟨s1, _ | ⟨s2, _ | ⟨s3, tl3⟩⟩⟩
    · rfl
    · rfl
    · rw [hl] at hlen
      simp at hlen
    · rfl
  · intro env v s1 s2 hmem hsplit hp1
    unfold processVolume
    dsimp only
    rw [if_neg hmem, hsplit]
    dsimp only
    rw [hp1]
  · intro env v s1 s2 a hmem hsplit hp1 hp2
    unfold processVolume
    dsimp only
    rw [if_neg hmem, hsplit]
    dsimp only
    rw [hp1]
    dsimp only
    rw [hp2]
  · intro env v s1 s2 a b hmem hsplit hp1 hp2 hba hded
    unfold processVolume
    dsimp only
    rw [if_neg hmem, hsplit]
    dsimp only
    rw [hp1]
    dsimp only
    rw [hp2]
    dsimp only
    rw [intRange_nil a b hba]
    dsimp only [chaptersLoop]
    rw [hded]
    rw [if_neg Bool.false_ne_true]
    rfl

/-- C9 counterexample: the range text `5-3` splits into the two integers
5 and 3 with start > end, yet the run does not abort: it proceeds through
cover fetch, packaging, conversion and relocation (over an empty chapter
range) and registers the output artifact. -/
theorem processVolume_reversed_range_counterexample :
    pySplit "5-3" '-' = ["5", "3"] ∧
    pyParseInt "5" = some 5 ∧ pyParseInt "3" = some 3 ∧
    processVolume baseEnv { vid := 1, chapters := "5-3" } =
      { trace := [Stage.coverFetch, Stage.package, Stage.convert, Stage.relocate],
        outputs := ["T - Volume 001 [reCBZ].epub"], err := none } :=
  ⟨by decide, by decide, by decide, by decide⟩

/-- C9 witness: the three abort shapes and the proceeding reversed range,
each at a concrete volume against the base environment. -/
theorem processVolume_range_parsing_witness :
    processVolume baseEnv { vid := 1, chapters := "1-2-3" } =
      { trace := [], outputs := baseEnv.outputFiles,
        err := some (PyErr.died ("Incorrect chapters definition for volume " ++ toString (1 : ℤ))) } ∧
    processVolume baseEnv { vid := 1, chapters := "a-3" } =
      { trace := [], outputs := baseEnv.outputFiles, err := some PyErr.valueError } ∧
    processVolume baseEnv { vid := 1, chapters := "1-b" } =
      { trace := [], outputs := baseEnv.outputFiles, err := some PyErr.valueError } ∧
    processVolume baseEnv { vid := 1, chapters := "5-3" } =
      { trace := [Stage.coverFetch, Stage.package, Stage.convert, Stage.relocate],
        outputs := epubName baseEnv.title (1 : ℤ) :: baseEnv.outputFiles, err := none } :=
  ⟨processVolume_range_parsing.1 baseEnv { vid := 1, chapters := "1-2-3" } (by decide) (by decide),
   processVolume_range_parsing.2.1 baseEnv { vid := 1, chapters := "a-3" } "a" "3"
     (by decide) (by decide) (by decide),
   processVolume_range_parsing.2.2.1 baseEnv { vid := 1, chapters := "1-b" } "1" "b" 1
     (by decide) (by decide) (by decide) (by decide),
   processVolume_range_parsing.2.2.2 baseEnv { vid := 1, chapters := "5-3" } "5" "3" 5 3
     (by decide) (by decide) (by decide) (by decide) (by decide) rfl⟩

/-! ## C2: duplicate-pair removal -/

/-- C2: three image files whose thumbnails are pixel-identical form three
qualifying pairs; the removal loop deletes both members of the first pair
and then crashes with an uncaught `FileNotFoundError` re-removing
`a.jpg` for the second pair, so `c.jpg` is never removed and the whole
run aborts instead of deleting the group. -/
theorem cleanupDedups_triple_crash :
    cleanupDedups constThumb tripleWs = Except.error (PyErr.fileNotFound "a.jpg")
    ∧ pixel_difference (constThumb [0]) (constThumb [1]) < IMG_DIFF_THRESHOLD := by
  have hpd : ∀ (x y : PageBytes), pixel_difference (constThumb x) (constThumb y) = 0 :=
    fun _ _ => pixel_difference_self (List.replicate 256 (0, 0, 0))
  have hθ : (0 : ℚ) < IMG_DIFF_THRESHOLD := by
    unfold IMG_DIFF_THRESHOLD
    norm_num
  constructor
  · unfold cleanupDedups
    dsimp only
    have hdiffs : buildDiffs (allPairs ((globFiles tripleWs).map
        (fun n => (n, constThumb (contentOf tripleWs n))))) =
        [(("a.jpg", "b.jpg"), pixel_difference (constThumb [0]) (constThumb [1])),
         (("a.jpg", "c.jpg"), pixel_difference (constThumb [0]) (constThumb [2])),
         (("b.jpg", "c.jpg"), pixel_difference (constThumb [1]) (constThumb [2]))] := rfl
    rw [hdiffs, hpd, hpd, hpd]
    have hfilt : List.filter (fun kd => decide (kd.2 < IMG_DIFF_THRESHOLD))
        [(("a.jpg", "b.jpg"), (0 : ℚ)), (("a.jpg", "c.jpg"), (0 : ℚ)), (("b.jpg", "c.jpg"), (0 : ℚ))] =
        [(("a.jpg", "b.jpg"), (0 : ℚ)), (("a.jpg", "c.jpg"), (0 : ℚ)), (("b.jpg", "c.jpg"), (0 : ℚ))] := by
      have hd : decide ((0 : ℚ) < IMG_DIFF_THRESHOLD) = true := decide_eq_true hθ
      simp only [List.filter_cons, hd, if_true, List.filter_nil]
    rw [hfilt]
    rfl
  · rw [hpd]
    exact hθ
